import Mathlib

/-!
Shallow embedding of the HR tool's core logic (`src/utils.py`) in Lean 4.

Modelling conventions:
  * Python floats are modelled as exact rationals (`ℚ`).
  * Python values that may be passed to `compute_vacation_total` are modelled
    by the inductive `PyVal` (string / int / float / a non-numeric, non-string
    value such as `None`).
  * Fallible Python code is modelled with `Except`: `ValueError` from
    `float(...)` on an unparseable string, `TypeError` from `float(...)` on a
    non-numeric non-string value, and I/O errors from the file layer.
  * The builtin `float(s)` string conversion is modelled by `parseFloat` for
    the plain decimal forms `[+|-] digits [. digits]` / `[+|-]. digits`
    (no exponent / inf / nan / surrounding whitespace, which the repository
    never produces).  Parsing is split into a purely combinatorial phase
    (`parseDec`, over `ℕ` and `Char`) and a numeric phase (`partsToRat`).
  * `round(x)` with no `ndigits` argument is Python's round-half-to-even on
    the value; it is modelled by `pyRound` on `ℚ`.
  * Calendar dates are modelled as ordinal day numbers (`Int`); the current
    date (`pd.to_datetime("today")`) is an explicit parameter.
-/

/-- A Python value passed as the `workload_pct` argument:
a string, an int, a float, or a non-numeric non-string value (e.g. `None`). -/
inductive PyVal where
  | str : String → PyVal
  | int : Int → PyVal
  | float : ℚ → PyVal
  | noneV : PyVal
deriving Repr, DecidableEq

/-- Python exceptions raised by `float(...)`. -/
inductive PyError where
  | valueError : PyError
  | typeError : PyError
deriving Repr, DecidableEq

/-- Numeric value of the digits of `cs` (assumed to be decimal digits). -/
def natOfDigits (cs : List Char) : ℕ :=
  cs.foldl (fun acc c => 10 * acc + (c.toNat - 48)) 0

/-- Combinatorial phase of decimal parsing: an unsigned literal
`digits [. digits]` or `. digits`, returned as
(integer part, fractional part, number of fractional digits). -/
def parseDecBody (cs : List Char) : Option (ℕ × ℕ × ℕ) :=
  let ip := cs.takeWhile Char.isDigit
  let rest := cs.dropWhile Char.isDigit
  match rest with
  | [] => if ip.isEmpty then Option.none else some (natOfDigits ip, 0, 0)
  | '.' :: fp =>
    if fp.all Char.isDigit && !(ip.isEmpty && fp.isEmpty) then
      some (natOfDigits ip, natOfDigits fp, fp.length)
    else Option.none
  | _ => Option.none

/-- Combinatorial phase of decimal parsing, with an optional leading sign
(`true` marks a negative number). -/
def parseDec (cs : List Char) : Option (Bool × ℕ × ℕ × ℕ) :=
  match cs with
  | '+' :: rest => (parseDecBody rest).map (fun r => (false, r.1, r.2.1, r.2.2))
  | '-' :: rest => (parseDecBody rest).map (fun r => (true, r.1, r.2.1, r.2.2))
  | _ => (parseDecBody cs).map (fun r => (false, r.1, r.2.1, r.2.2))

/-- Numeric phase of decimal parsing: the rational value of a parse result. -/
def partsToRat : Bool × ℕ × ℕ × ℕ → ℚ
  | (sg, i, f, k) => (if sg then -1 else 1) * ((i : ℚ) + (f : ℚ) / 10 ^ k)

/-- Model of the Python builtin `float(s)` on a string, for plain decimal
forms with an optional sign (`Option.none` models `ValueError`). -/
def parseFloat (s : String) : Option ℚ :=
  (parseDec s.data).map partsToRat

/-- Model of `s.endswith("%")`. -/
def pyEndsWithPercent (s : String) : Bool :=
  match s.data.getLast? with
  | some c => c == '%'
  | Option.none => false

/-- Model of `s.strip("%")`: drop leading and trailing `%` characters. -/
def stripPercent (s : String) : String :=
  String.mk (((s.data.dropWhile (· == '%')).reverse.dropWhile (· == '%')).reverse)

/-- Model of Python `round(q)` (no `ndigits`): round half to even. -/
def pyRound (q : ℚ) : Int :=
  if q - (⌊q⌋ : ℚ) < 1/2 then ⌊q⌋
  else if 1/2 < q - (⌊q⌋ : ℚ) then ⌊q⌋ + 1
  else if ⌊q⌋ % 2 = 0 then ⌊q⌋ else ⌊q⌋ + 1

/-- Embedding of `compute_vacation_total` (src/utils.py, lines 28–42):
```
if isinstance(workload_pct, str) and workload_pct.endswith("%"):
    frac = float(workload_pct.strip("%")) / 100.0
elif isinstance(workload_pct, (int, float)) and workload_pct > 1:
    frac = float(workload_pct) / 100.0
else:
    frac = float(workload_pct)
total = round(25 * frac)
return int(total)
```
-/
def compute_vacation_total (workload_pct : PyVal) : Except PyError Int :=
  let fracE : Except PyError ℚ :=
    match workload_pct with
    | .str s =>
      if pyEndsWithPercent s then
        match parseFloat (stripPercent s) with
        | some x => .ok (x / 100)
        | Option.none => .error .valueError
      else
        -- a string that does not end in "%" falls to the final `else`:
        -- `frac = float(workload_pct)`, with no division by 100
        match parseFloat s with
        | some x => .ok x
        | Option.none => .error .valueError
    | .int n => if 1 < (n : ℚ) then .ok ((n : ℚ) / 100) else .ok ((n : ℚ))
    | .float x => if 1 < x then .ok (x / 100) else .ok x
    | .noneV => .error .typeError
  match fracE with
  | .ok frac => .ok (pyRound (25 * frac))
  | .error e => .error e

/-! ### Seniority inference (src/utils.py, lines 44–66) -/

/-- The `hire_date` argument of `infer_seniority`: either a value that
`pd.to_datetime` converts to a date (kept as an ordinal day number), or a
value on which `pd.to_datetime` raises (kept with the offending text). -/
inductive DateInput where
  | valid : Int → DateInput
  | invalid : String → DateInput
deriving Repr, DecidableEq

/-- The `years_at_company` local of `infer_seniority`:
`(pd.to_datetime("today") - pd.to_datetime(hire_date)).days / 365.25` when
`hire_date` is present and parseable; the `except` branch and the missing
`hire_date` case both put `0`. -/
def yearsAtCompany (hire_date : Option DateInput) (today : Int) : ℚ :=
  match hire_date with
  | some (.valid d) => ((today - d : Int) : ℚ) / (365.25 : ℚ)
  | some (.invalid _) => 0
  | Option.none => 0

/-- The decision ladder of `infer_seniority` (src/utils.py, lines 58–66),
as a function of age and tenure in years:
```
if age < 28 and years_at_company < 3:  return "Junior"
if age < 35 and years_at_company < 6:  return "Mid"
if age < 45 and years_at_company < 12: return "Senior"
if age < 60 and years_at_company >= 8: return "Manager"
return "Director"
```
-/
def seniorityLadder (age years_at_company : ℚ) : String :=
  if age < 28 ∧ years_at_company < 3 then "Junior"
  else if age < 35 ∧ years_at_company < 6 then "Mid"
  else if age < 45 ∧ years_at_company < 12 then "Senior"
  else if age < 60 ∧ 8 ≤ years_at_company then "Manager"
  else "Director"

/-- Embedding of `infer_seniority(age, hire_date=None)`: compute
`years_at_company` from the optional hire date and the current date, then
walk the decision ladder.  `infer_seniority` never raises: the `try/except`
around the tenure computation turns any date-parse failure into tenure 0. -/
def infer_seniority (age : ℚ) (hire_date : Option DateInput) (today : Int) : String :=
  seniorityLadder age (yearsAtCompany hire_date today)

/-- The five seniority labels. -/
def seniorityLabels : List String := ["Junior", "Mid", "Senior", "Manager", "Director"]

/-- The decision ladder as an ordered rule list (condition, label). -/
def ladderRules : List ((ℚ → ℚ → Bool) × String) :=
  [ (fun a t => decide (a < 28) && decide (t < 3), "Junior"),
    (fun a t => decide (a < 35) && decide (t < 6), "Mid"),
    (fun a t => decide (a < 45) && decide (t < 12), "Senior"),
    (fun a t => decide (a < 60) && decide (8 ≤ t), "Manager") ]

/-- First-match evaluation of a rule list, with a default label. -/
def firstMatch (default : String) : List ((ℚ → ℚ → Bool) × String) → ℚ → ℚ → String
  | [], _, _ => default
  | r :: rest, a, t => if r.1 a t then r.2 else firstMatch default rest a t

/-! ### Record store (src/utils.py, lines 1–26) -/

/-- One row of the HR dataset, with the hire date held as a parsed
calendar date (ordinal day number). -/
structure Row where
  firstName : String
  lastName : String
  canton : String
  age : Int
  department : String
  seniorityLevel : String
  workload : String
  vacationTotal : Int
  vacationTaken : Int
  hireDate : Int
deriving Repr, DecidableEq

/-- I/O errors of the file layer. -/
inductive IOErr where
  | missingFile : IOErr
deriving Repr, DecidableEq

/-- The state of the backing CSV file at `DATA_PATH`: `Option.none` when the
file is missing or unreadable, otherwise its rows in file order (serialized
CSV text is not modelled; the rows carry already-parsed hire dates). -/
abbrev FileState : Type := Option (List Row)

/-- Embedding of `load_data` (src/utils.py, lines 9–12):
`pd.read_csv(DATA_PATH, parse_dates=["Hire Date"])` reads the whole file,
raising `FileNotFoundError` when it is absent. -/
def load_data (fs : FileState) : Except IOErr (List Row) :=
  match fs with
  | Option.none => .error .missingFile
  | some rows => .ok rows

/-- Embedding of `save_data` (src/utils.py, lines 14–16): overwrite the file. -/
def save_data (rows : List Row) : FileState := some rows

/-- The ISO normalization `pd.to_datetime(new_df["Hire Date"]).dt.date`
applied before writing: on a value that is already a calendar date it is
the identity. -/
def normalizeHireDate (r : Row) : Row := { r with hireDate := r.hireDate }

/-- Embedding of `append_row` (src/utils.py, lines 18–26): re-read the whole
collection, normalize the new row's hire date, concatenate, rewrite. -/
def append_row (fs : FileState) (row_dict : Row) : Except IOErr FileState :=
  match load_data fs with
  | .error e => .error e
  | .ok df => .ok (save_data (df ++ [normalizeHireDate row_dict]))

/-! ### Predicates used to state the claims -/

/-- A "percentage string": a string value ending in `"%"` (spec wording). -/
def isPercentageString : PyVal → Bool
  | .str s => pyEndsWithPercent s
  | _ => false

/-- A numeric value: an int or a float (spec wording). -/
def isNumericVal : PyVal → Bool
  | .int _ => true
  | .float _ => true
  | _ => false

/-- The numeric (int or float) payload of a `PyVal`, when there is one. -/
def numVal : PyVal → Option ℚ
  | .int n => some ((n : ℚ))
  | .float x => some x
  | _ => Option.none

/-- The exact failure condition of `compute_vacation_total` as implemented:
a string whose content (with `%` stripped when it ends in `"%"`) is not a
parseable number, or a value that is neither a string nor numeric. -/
def cvtFails : PyVal → Bool
  | .str s =>
    if pyEndsWithPercent s then (parseFloat (stripPercent s)).isNone
    else (parseFloat s).isNone
  | .int _ => false
  | .float _ => false
  | .noneV => true

/-- Whether an `Except` result of the file layer is a success. -/
def loadIsOk : Except IOErr (List Row) → Bool
  | .ok _ => true
  | .error _ => false

/-! ### Evaluation lemmas for `pyRound` -/

theorem pyRound_eq_of_lt_half (q : ℚ) (n : ℤ) (h1 : (n : ℚ) ≤ q)
    (h2 : q < (n : ℚ) + 1/2) : pyRound q = n := by
  have hf : ⌊q⌋ = n := Int.floor_eq_iff.mpr ⟨h1, by linarith⟩
  unfold pyRound
  rw [hf, if_pos (by linarith)]

theorem pyRound_eq_of_half_lt (q : ℚ) (n : ℤ) (h1 : (n : ℚ) + 1/2 < q)
    (h2 : q < (n : ℚ) + 1) : pyRound q = n + 1 := by
  have hf : ⌊q⌋ = n := Int.floor_eq_iff.mpr ⟨by linarith, by linarith⟩
  unfold pyRound
  rw [hf, if_neg (by linarith), if_pos (by linarith)]

theorem pyRound_intCast (n : ℤ) : pyRound ((n : ℚ)) = n :=
  pyRound_eq_of_lt_half _ n le_rfl (by linarith)

theorem pyRound_half_even (n : ℤ) (h : n % 2 = 0) :
    pyRound ((n : ℚ) + 1/2) = n := by
  have hf : ⌊((n : ℚ) + 1/2)⌋ = n :=
    Int.floor_eq_iff.mpr ⟨by linarith, by linarith⟩
  unfold pyRound
  rw [hf, if_neg (by linarith), if_neg (by linarith), if_pos h]

theorem pyRound_half_odd (n : ℤ) (h : ¬ n % 2 = 0) :
    pyRound ((n : ℚ) + 1/2) = n + 1 := by
  have hf : ⌊((n : ℚ) + 1/2)⌋ = n :=
    Int.floor_eq_iff.mpr ⟨by linarith, by linarith⟩
  unfold pyRound
  rw [hf, if_neg (by linarith), if_neg (by linarith), if_neg h]

/-! ### Bounds and monotonicity of `pyRound` -/

theorem pyRound_le_add_half (q : ℚ) : (pyRound q : ℚ) ≤ q + 1/2 := by
  have h1 : (⌊q⌋ : ℚ) ≤ q := Int.floor_le q
  have h2 : q < (⌊q⌋ : ℚ) + 1 := Int.lt_floor_add_one q
  unfold pyRound
  split_ifs with ha hb hc <;> push_cast <;> linarith

theorem sub_half_le_pyRound (q : ℚ) : q - 1/2 ≤ (pyRound q : ℚ) := by
  have h1 : (⌊q⌋ : ℚ) ≤ q := Int.floor_le q
  have h2 : q < (⌊q⌋ : ℚ) + 1 := Int.lt_floor_add_one q
  unfold pyRound
  split_ifs with ha hb hc <;> push_cast <;> linarith

theorem pyRound_mono {q1 q2 : ℚ} (h : q1 ≤ q2) : pyRound q1 ≤ pyRound q2 := by
  by_contra hlt
  push_neg at hlt
  have hstep : ((pyRound q2 : ℚ)) + 1 ≤ (pyRound q1 : ℚ) := by
    exact_mod_cast Int.add_one_le_iff.mpr hlt
  have h1 := pyRound_le_add_half q1
  have h2 := sub_half_le_pyRound q2
  have hq : q2 ≤ q1 := by linarith
  have : q1 = q2 := le_antisymm h hq
  rw [this] at hlt
  exact lt_irrefl _ hlt

/-! ### Evaluation lemmas for `compute_vacation_total` -/

theorem cvt_str_percent (s : String) (p : Bool × ℕ × ℕ × ℕ)
    (h1 : pyEndsWithPercent s = true) (h2 : parseDec (stripPercent s).data = some p) :
    compute_vacation_total (.str s) = .ok (pyRound (25 * (partsToRat p / 100))) := by
  simp [compute_vacation_total, parseFloat, h1, h2]

theorem cvt_str_plain (s : String) (p : Bool × ℕ × ℕ × ℕ)
    (h1 : pyEndsWithPercent s = false) (h2 : parseDec s.data = some p) :
    compute_vacation_total (.str s) = .ok (pyRound (25 * partsToRat p)) := by
  simp [compute_vacation_total, parseFloat, h1, h2]

theorem cvt_str_percent_err (s : String)
    (h1 : pyEndsWithPercent s = true) (h2 : parseDec (stripPercent s).data = Option.none) :
    compute_vacation_total (.str s) = .error .valueError := by
  simp [compute_vacation_total, parseFloat, h1, h2]

theorem cvt_str_plain_err (s : String)
    (h1 : pyEndsWithPercent s = false) (h2 : parseDec s.data = Option.none) :
    compute_vacation_total (.str s) = .error .valueError := by
  simp [compute_vacation_total, parseFloat, h1, h2]

theorem cvt_float_of_le (x : ℚ) (h : x ≤ 1) :
    compute_vacation_total (.float x) = .ok (pyRound (25 * x)) := by
  simp [compute_vacation_total, not_lt.mpr h]

theorem cvt_float_of_gt (x : ℚ) (h : 1 < x) :
    compute_vacation_total (.float x) = .ok (pyRound (25 * (x / 100))) := by
  simp [compute_vacation_total, h]

theorem cvt_int_of_le (n : ℤ) (h : (n : ℚ) ≤ 1) :
    compute_vacation_total (.int n) = .ok (pyRound (25 * (n : ℚ))) := by
  simp [compute_vacation_total, not_lt.mpr h]

theorem cvt_int_of_gt (n : ℤ) (h : 1 < (n : ℚ)) :
    compute_vacation_total (.int n) = .ok (pyRound (25 * ((n : ℚ) / 100))) := by
  simp [compute_vacation_total, h]

theorem seniorityLadder_eq_firstMatch (a t : ℚ) :
    seniorityLadder a t = firstMatch "Director" ladderRules a t := by
  simp only [seniorityLadder, firstMatch, ladderRules, Bool.and_eq_true, decide_eq_true_eq]

theorem normalizeHireDate_id (r : Row) : normalizeHireDate r = r := rfl

/-! ### Helper evaluations -/

theorem percent_str_eval : ∀ p : ℕ, p < 101 →
    pyEndsWithPercent (toString p ++ "%") = true ∧
    parseDec (stripPercent (toString p ++ "%")).data = some (false, p, 0, 0) := by
  decide

theorem partsToRat_nat (p : ℕ) : partsToRat (false, p, 0, 0) = (p : ℚ) := by
  norm_num [partsToRat]

theorem cvt_numVal (v : PyVal) (q : ℚ) (h : numVal v = some q) :
    compute_vacation_total v =
      .ok (if 1 < q then pyRound (25 * (q / 100)) else pyRound (25 * q)) := by
  cases v with
  | int n =>
    simp only [numVal, Option.some.injEq] at h
    subst h
    by_cases hq : 1 < ((n : ℤ) : ℚ)
    · rw [cvt_int_of_gt n hq, if_pos hq]
    · rw [cvt_int_of_le n (not_lt.mp hq), if_neg hq]
  | float x =>
    simp only [numVal, Option.some.injEq] at h
    subst h
    by_cases hq : 1 < x
    · rw [cvt_float_of_gt x hq, if_pos hq]
    · rw [cvt_float_of_le x (not_lt.mp hq), if_neg hq]
  | str s => simp [numVal] at h
  | noneV => simp [numVal] at h

theorem seniorityLadder_mem (a t : ℚ) : seniorityLadder a t ∈ seniorityLabels := by
  unfold seniorityLadder
  split_ifs <;> simp [seniorityLabels]

theorem cvt_80pct : compute_vacation_total (.str "80%") = .ok 20 := by
  rw [cvt_str_percent "80%" (false, 80, 0, 0) (by decide) (by decide)]
  rw [show (25 : ℚ) * (partsToRat (false, 80, 0, 0) / 100) = ((20 : ℤ) : ℚ) by
    norm_num [partsToRat]]
  rw [pyRound_intCast]

theorem cvt_int80 : compute_vacation_total (.int 80) = .ok 20 := by
  rw [cvt_int_of_gt 80 (by norm_num)]
  rw [show (25 : ℚ) * (((80 : ℤ) : ℚ) / 100) = ((20 : ℤ) : ℚ) by norm_num]
  rw [pyRound_intCast]

theorem cvt_float45 : compute_vacation_total (.float (4/5)) = .ok 20 := by
  rw [cvt_float_of_le (4/5) (by norm_num)]
  rw [show (25 : ℚ) * (4/5) = ((20 : ℤ) : ℚ) by norm_num]
  rw [pyRound_intCast]

theorem cvt_str80 : compute_vacation_total (.str "80") = .ok 2000 := by
  rw [cvt_str_plain "80" (false, 80, 0, 0) (by decide) (by decide)]
  rw [show (25 : ℚ) * partsToRat (false, 80, 0, 0) = ((2000 : ℤ) : ℚ) by
    norm_num [partsToRat]]
  rw [pyRound_intCast]

theorem cvt_float_one : compute_vacation_total (.float 1) = .ok 25 := by
  rw [cvt_float_of_le 1 le_rfl]
  rw [show (25 : ℚ) * 1 = ((25 : ℤ) : ℚ) by norm_num]
  rw [pyRound_intCast]

theorem cvt_float_threehalves : compute_vacation_total (.float (3/2)) = .ok 0 := by
  rw [cvt_float_of_gt (3/2) (by norm_num)]
  rw [show pyRound (25 * ((3 : ℚ)/2 / 100)) = (0 : ℤ) from
    pyRound_eq_of_lt_half _ 0 (by norm_num) (by norm_num)]

/-! ### The claims -/

/-- C1: for every workload fraction w in [0,1] given as a float,
`compute_vacation_total` returns round(25·w) (Python's round half-to-even);
the string "80%", the fraction 0.8 and the int 80 all yield 20; and for
every whole-number percentage p in (1,100], the string "p%", the fraction
p/100 and the int p all yield the same result. -/
theorem claim_C1 :
    (∀ w : ℚ, 0 ≤ w → w ≤ 1 →
        compute_vacation_total (.float w) = .ok (pyRound (25 * w))) ∧
    (compute_vacation_total (.str "80%") = .ok 20 ∧
      compute_vacation_total (.float (4/5)) = .ok 20 ∧
      compute_vacation_total (.int 80) = .ok 20) ∧
    (∀ p : ℕ, p < 101 → 1 < p →
        compute_vacation_total (.str (toString p ++ "%"))
          = compute_vacation_total (.int (p : ℤ)) ∧
        compute_vacation_total (.float ((p : ℚ) / 100))
          = compute_vacation_total (.int (p : ℤ))) := by
  refine ⟨fun w _ hw1 => cvt_float_of_le w hw1,
    ⟨cvt_80pct, cvt_float45, cvt_int80⟩, ?_⟩
  intro p hlt hgt
  have hev := percent_str_eval p hlt
  have hgtQ : (1 : ℚ) < (((p : ℤ)) : ℚ) := by exact_mod_cast hgt
  have hint : compute_vacation_total (.int (p : ℤ))
      = .ok (pyRound (25 * ((((p : ℤ)) : ℚ) / 100))) := cvt_int_of_gt _ hgtQ
  have hle : ((p : ℚ) / 100) ≤ 1 := by
    have h100 : (p : ℚ) ≤ 100 := by exact_mod_cast Nat.lt_succ_iff.mp hlt
    linarith
  constructor
  · rw [cvt_str_percent _ _ hev.1 hev.2, hint, partsToRat_nat]
    norm_num
  · rw [cvt_float_of_le _ hle, hint]
    norm_num

/-- Witness for C1, at w = 4/5 and p = 80. -/
theorem claim_C1_witness :
    compute_vacation_total (.float (4/5)) = .ok (pyRound (25 * (4/5))) ∧
    compute_vacation_total (.str (toString (80 : ℕ) ++ "%"))
      = compute_vacation_total (.int ((80 : ℕ) : ℤ)) :=
  ⟨claim_C1.1 (4/5) (by norm_num) (by norm_num),
    (claim_C1.2.2 80 (by norm_num) (by norm_num)).1⟩

/-- C2: `infer_seniority` walks the decision ladder in order, returning the
label of the first matching rule ("Director" when none matches), and on the
spec's five sample (age, tenure) pairs returns Junior, Mid, Senior, Manager
and Director (the fall-through case) respectively. -/
theorem claim_C2 :
    (∀ a t : ℚ, seniorityLadder a t = firstMatch "Director" ladderRules a t) ∧
    (∀ (age : ℚ) (hd : Option DateInput) (today : Int),
        infer_seniority age hd today
          = seniorityLadder age (yearsAtCompany hd today)) ∧
    seniorityLadder 25 0 = "Junior" ∧
    seniorityLadder 30 4 = "Mid" ∧
    seniorityLadder 40 10 = "Senior" ∧
    seniorityLadder 50 9 = "Manager" ∧
    seniorityLadder 50 2 = "Director" := by
  refine ⟨seniorityLadder_eq_firstMatch, fun _ _ _ => rfl, ?_, ?_, ?_, ?_, ?_⟩ <;>
    norm_num [seniorityLadder]

/-- C3: appending a record to a stored collection and loading again yields
the old rows (in order) followed by exactly the new record; the size grows
by one and the last row is the appended record (hire-date normalization is
the identity on an already-valid date). -/
theorem claim_C3 (rows : List Row) (r : Row) :
    append_row (some rows) r = .ok (some (rows ++ [r])) ∧
    load_data (some (rows ++ [r])) = .ok (rows ++ [r]) ∧
    (rows ++ [r]).length = rows.length + 1 ∧
    (rows ++ [r]).getLast? = some r ∧
    (rows ++ [r]).take rows.length = rows := by
  exact ⟨rfl, rfl, by simp, by simp, by simp⟩

/-- C4: loading from a missing (or unreadable) backing file fails with an
I/O error and never returns a collection. -/
theorem claim_C4 :
    load_data Option.none = .error .missingFile ∧
    loadIsOk (load_data Option.none) = false := ⟨rfl, rfl⟩

/-- C5 counterexample: "80" is neither a percentage string (it does not end
in "%") nor a numeric value, yet `compute_vacation_total` succeeds on it
(returning 2000), so the claimed "fails exactly when neither" is false. -/
theorem claim_C5_counterexample :
    ¬ (∀ v : PyVal,
        (∃ e, compute_vacation_total v = .error e) ↔
          (isPercentageString v = false ∧ isNumericVal v = false)) := by
  intro h
  obtain ⟨e, he⟩ := (h (.str "80")).mpr ⟨by decide, rfl⟩
  rw [cvt_str80] at he
  exact Except.noConfusion he

/-- C5 (amended): `compute_vacation_total` fails exactly when its argument
is a string whose content (after `%`-stripping when it ends in "%") is not a
parseable number, or a value that is neither a string nor numeric; in
particular every numeric value succeeds. -/
theorem claim_C5_amended_thm (v : PyVal) :
    (∃ e, compute_vacation_total v = .error e) ↔ cvtFails v = true := by
  cases v with
  | str s =>
    by_cases hp : pyEndsWithPercent s
    · rcases hf : parseFloat (stripPercent s) with _ | x <;>
        simp [compute_vacation_total, cvtFails, hp, hf]
    · rcases hf : parseFloat s with _ | x <;>
        simp [compute_vacation_total, cvtFails, hp, hf]
  | int n =>
    by_cases hq : 1 < ((n : ℤ) : ℚ) <;> simp [compute_vacation_total, cvtFails, hq]
  | float x =>
    by_cases hq : 1 < x <;> simp [compute_vacation_total, cvtFails, hq]
  | noneV => simp [compute_vacation_total, cvtFails]

/-- C6: tenure is (current date − hire date) in days divided by 365.25, and
an absent hire date gives tenure 0, with the ladder evaluated accordingly. -/
theorem claim_C6 (age : ℚ) (d today : Int) :
    infer_seniority age Option.none today = seniorityLadder age 0 ∧
    yearsAtCompany (some (.valid d)) today = ((today - d : Int) : ℚ) / (365.25 : ℚ) ∧
    infer_seniority age (some (.valid d)) today
      = seniorityLadder age (((today - d : Int) : ℚ) / (365.25 : ℚ)) :=
  ⟨rfl, rfl, rfl⟩

/-- C7 counterexample: the workloads 1 and 3/2 are numeric with 1 ≤ 3/2,
but `compute_vacation_total` gives 25 and 0 respectively (the value 3/2 is
taken as the percentage 1.5%), so monotonicity over all numeric pairs
fails. -/
theorem claim_C7_counterexample :
    numVal (.float 1) = some 1 ∧ numVal (.float (3/2)) = some (3/2) ∧
    (1 : ℚ) ≤ 3/2 ∧
    compute_vacation_total (.float 1) = .ok 25 ∧
    compute_vacation_total (.float (3/2)) = .ok 0 ∧
    ¬ (25 : ℤ) ≤ 0 :=
  ⟨rfl, rfl, by norm_num, cvt_float_one, cvt_float_threehalves, by norm_num⟩

/-- C7 (amended): `compute_vacation_total` is monotonically non-decreasing
over numeric workloads within each conversion regime: whenever w1 ≤ w2 and
both are fractions (w2 ≤ 1) or both are whole-number percentages (1 < w1),
the results are ordered. -/
theorem claim_C7_amended_thm (v1 v2 : PyVal) (q1 q2 : ℚ)
    (h1 : numVal v1 = some q1) (h2 : numVal v2 = some q2)
    (hle : q1 ≤ q2) (hreg : q2 ≤ 1 ∨ 1 < q1) (n1 n2 : ℤ)
    (e1 : compute_vacation_total v1 = .ok n1)
    (e2 : compute_vacation_total v2 = .ok n2) : n1 ≤ n2 := by
  rw [cvt_numVal v1 q1 h1] at e1
  rw [cvt_numVal v2 q2 h2] at e2
  rcases hreg with hr | hr
  · rw [if_neg (not_lt.mpr (le_trans hle hr)), Except.ok.injEq] at e1
    rw [if_neg (not_lt.mpr hr), Except.ok.injEq] at e2
    subst e1; subst e2
    exact pyRound_mono (by linarith)
  · rw [if_pos hr, Except.ok.injEq] at e1
    rw [if_pos (lt_of_lt_of_le hr hle), Except.ok.injEq] at e2
    subst e1; subst e2
    exact pyRound_mono (by linarith)

/-- Witness for the amended C7, at w1 = 2/5 and w2 = 4/5. -/
theorem claim_C7_amended_witness :
    compute_vacation_total (.float (2/5)) = .ok 10 ∧
    compute_vacation_total (.float (4/5)) = .ok 20 ∧ (10 : ℤ) ≤ 20 := by
  have e1 : compute_vacation_total (.float (2/5)) = .ok 10 := by
    rw [cvt_float_of_le (2/5) (by norm_num)]
    rw [show (25 : ℚ) * (2/5) = ((10 : ℤ) : ℚ) by norm_num, pyRound_intCast]
  have e2 : compute_vacation_total (.float (4/5)) = .ok 20 := cvt_float45
  exact ⟨e1, e2, claim_C7_amended_thm (.float (2/5)) (.float (4/5)) (2/5) (4/5)
    rfl rfl (by norm_num) (Or.inl (by norm_num)) 10 20 e1 e2⟩

/-- C8: workload 0 yields 0 days; a numeric workload greater than 1 is
divided by 100, one at most 1 is taken as a literal fraction; the boundary
value 1 yields 25 both as int and as float; and out-of-range inputs are not
validated: 200 yields 50 and -1 yields -25. -/
theorem claim_C8 :
    compute_vacation_total (.int 0) = .ok 0 ∧
    (∀ q : ℚ, 1 < q →
        compute_vacation_total (.float q) = .ok (pyRound (25 * (q / 100)))) ∧
    (∀ q : ℚ, q ≤ 1 →
        compute_vacation_total (.float q) = .ok (pyRound (25 * q))) ∧
    compute_vacation_total (.float 1) = .ok 25 ∧
    compute_vacation_total (.int 1) = .ok 25 ∧
    compute_vacation_total (.int 200) = .ok 50 ∧
    compute_vacation_total (.float (-1)) = .ok (-25) := by
  refine ⟨?_, cvt_float_of_gt, cvt_float_of_le, cvt_float_one, ?_, ?_, ?_⟩
  · rw [cvt_int_of_le 0 (by norm_num)]
    rw [show (25 : ℚ) * (((0 : ℤ)) : ℚ) = ((0 : ℤ) : ℚ) by norm_num, pyRound_intCast]
  · rw [cvt_int_of_le 1 (by norm_num)]
    rw [show (25 : ℚ) * (((1 : ℤ)) : ℚ) = ((25 : ℤ) : ℚ) by norm_num, pyRound_intCast]
  · rw [cvt_int_of_gt 200 (by norm_num)]
    rw [show (25 : ℚ) * ((((200 : ℤ)) : ℚ) / 100) = ((50 : ℤ) : ℚ) by norm_num,
      pyRound_intCast]
  · rw [cvt_float_of_le (-1) (by norm_num)]
    rw [show (25 : ℚ) * (-1) = (((-25) : ℤ) : ℚ) by norm_num, pyRound_intCast]

/-- Witness for C8, applying the two conditional conjuncts at q = 2 and q = 1/2. -/
theorem claim_C8_witness :
    compute_vacation_total (.float 2) = .ok (pyRound (25 * ((2 : ℚ) / 100))) ∧
    compute_vacation_total (.float (1/2)) = .ok (pyRound (25 * ((1 : ℚ)/2))) :=
  ⟨claim_C8.2.1 2 (by norm_num), claim_C8.2.2.1 (1/2) (by norm_num)⟩

/-- C9 counterexample: with an unparseable hire date, `infer_seniority`
does not fail: at age 25 it returns the seniority label "Junior" (the
`except` branch silently treats the tenure as 0). -/
theorem claim_C9_counterexample :
    infer_seniority 25 (some (.invalid "not a date")) 0 = "Junior" ∧
    "Junior" ∈ seniorityLabels := by
  refine ⟨?_, by simp [seniorityLabels]⟩
  show seniorityLadder 25 (yearsAtCompany (some (.invalid "not a date")) 0) = "Junior"
  norm_num [yearsAtCompany, seniorityLadder]

/-- C9 (amended): `infer_seniority` with an unparseable hire date does not
raise a format error; the exception is swallowed, tenure is treated as 0,
and the function returns the same seniority label as with no hire date. -/
theorem claim_C9_amended_thm (age : ℚ) (s : String) (today : Int) :
    infer_seniority age (some (.invalid s)) today
      = infer_seniority age Option.none today ∧
    infer_seniority age (some (.invalid s)) today ∈ seniorityLabels :=
  ⟨rfl, seniorityLadder_mem _ _⟩

/-- C10: a numeric string without a trailing "%" is not recognized as a
percentage: it is converted as a literal fraction whatever its magnitude,
so "80" yields 2000 while "80%" and 80 yield 20. -/
theorem claim_C10 :
    compute_vacation_total (.str "80") = .ok 2000 ∧
    compute_vacation_total (.str "80%") = .ok 20 ∧
    compute_vacation_total (.int 80) = .ok 20 ∧
    (∀ (s : String) (q : ℚ), pyEndsWithPercent s = false → parseFloat s = some q →
        compute_vacation_total (.str s) = .ok (pyRound (25 * q))) := by
  refine ⟨cvt_str80, cvt_80pct, cvt_int80, ?_⟩
  intro s q h1 h2
  simp [compute_vacation_total, h1, h2]

/-- Witness for C10, applying the general conjunct at s = "80". -/
theorem claim_C10_witness :
    compute_vacation_total (.str "80") = .ok (pyRound (25 * (80 : ℚ))) := by
  apply claim_C10.2.2.2 "80" 80 (by decide)
  rw [parseFloat, show parseDec ("80".data) = some (false, 80, 0, 0) from by decide]
  rw [show Option.map partsToRat (some ((false, 80, 0, 0) : Bool × ℕ × ℕ × ℕ))
      = some (partsToRat (false, 80, 0, 0)) from rfl]
  rw [partsToRat_nat]
  norm_num
